import Mathlib

/-!
Verification of the AI comment-moderation / recommendation service.

This file gives a shallow embedding, in Lean, of the algorithmic parts of the
Python service (`ai-service`):

* `services/moderation_service.py` — the three-layer moderation pipeline;
* `services/recommendations_service.py` — batched personalized
  recommendations and similar-event search;
* `services/polling_service.py` — the background polling start/stop logic;
* `routers/moderation_router.py` and `utils/openai_key_check.py` — the
  OpenAI-key guard on HTTP endpoints.

External effects are made explicit parameters:

* the `better_profanity` library call is a function `String → Bool`;
* Python `re.search` on the (fixed, concrete) spam pattern strings is a
  function `String → String → Bool` taking the pattern and the lowered text;
* each remote LLM call is an explicit outcome value (`LLMOutcome`,
  `Except String _`, or a per-batch oracle function), covering both a parsed
  response and a raised exception.

Python floats are modelled as rationals (`ℚ`); Python exceptions as
`Except`/`Option`; Python dicts with optional keys as structures with
`Option` fields (`.get(k, d)` becomes `Option.getD`).
-/

namespace Moderation

/-- The four category scores plus confidence parsed from the LLM's JSON
answer.  Each key may be missing from the parsed dict, hence `Option`;
`moderate_comment` reads them with Python's `dict.get(key, default)`. -/
structure LLMScores where
  toxicity : Option ℚ
  harassment : Option ℚ
  hate_speech : Option ℚ
  inappropriate : Option ℚ
  confidence : Option ℚ
deriving DecidableEq

/-- Outcome of `_llm_analysis`'s remote call plus JSON parsing: either a
parsed score dict, or any raised exception (network error, JSON error, …). -/
inductive LLMOutcome where
  | success (scores : LLMScores)
  | failure
deriving DecidableEq

/-- `ModerationService._llm_analysis`: on success the parsed dict is
returned; the `except` branch catches every exception and returns the
literal fallback dict `{toxicity: 0.0, harassment: 0.0, hate_speech: 0.0,
inappropriate: 0.0, confidence: 0.5}` (moderation_service.py lines
189–197). -/
def llm_analysis : LLMOutcome → LLMScores
  | .success s => s
  | .failure => ⟨some 0, some 0, some 0, some 0, some (1/2)⟩

/-- The list `levels` of `_escalate_severity`. -/
def severity_levels : List String := ["none", "low", "medium", "high", "critical"]

/-- `levels.index(s)` of `_escalate_severity` (Python raises on a string not
in the list; all call sites pass members, where `indexOf` agrees). -/
def severity_index (s : String) : Nat := severity_levels.indexOf s

/-- `ModerationService._escalate_severity`: `levels[max(current_idx, new_idx)]`.
Python raises an exception when an argument is not in `levels`; the model
totalises with an arbitrary default, and every call site passes members. -/
def escalate_severity (current new : String) : String :=
  severity_levels.getD (max (severity_index current) (severity_index new)) "none"

/-- The four concrete regex pattern strings `self.spam_patterns`
(moderation_service.py lines 37–42). -/
def spam_patterns : List String :=
  ["(buy|click|free|win|winner|prize|offer|discount|sale).*\\b(now|today|limited)\\b",
   "http[s]?://(?![^\\s]*guc)",
   "(.)\\1\x7b4,\x7d",
   "\\b(dm|message|contact)\\s+me\\b"]

/-- `sum(1 for c in text if c.isupper()) / len(text)` as a rational. -/
def caps_fraction (text : String) : ℚ :=
  ((text.toList.filter Char.isUpper).length : ℚ) / (text.length : ℚ)

/-- Return value of `_check_spam`. -/
structure SpamCheck where
  is_spam : Bool
  patterns_matched : List String
deriving DecidableEq

/-- The `matches` list of `_check_spam`: every spam pattern that
`re.search` finds in the lowered text (`regex_hit` is the `re.search`
oracle), then `"excessive_caps"` when the text is longer than 10
characters and more than half of its characters are upper-case. -/
def spam_matches (regex_hit : String → String → Bool) (text : String) : List String :=
  if 10 < text.length ∧ (1/2 : ℚ) < caps_fraction text
  then spam_patterns.filter (fun p => regex_hit p text.toLower) ++ ["excessive_caps"]
  else spam_patterns.filter (fun p => regex_hit p text.toLower)

/-- `ModerationService._check_spam`: spam iff the match list is nonempty. -/
def check_spam (regex_hit : String → String → Bool) (text : String) : SpamCheck :=
  ⟨!(spam_matches regex_hit text).isEmpty, spam_matches regex_hit text⟩

/-- The mutable local state of `moderate_comment` (`flags`, `severity`,
`confidence`, and the keys of `detected_issues`; the per-key payload dicts
carry no information used later). -/
structure ModState where
  flags : List String
  severity : String
  confidence : ℚ
  detected_issues : List String
deriving DecidableEq

/-- One `if <check>: flags.append(flag); detected_issues[flag] = …;
severity = self._escalate_severity(severity, sev)` block of
`moderate_comment`. -/
def add_flag (cond : Bool) (flag sev : String) (s : ModState) : ModState :=
  if cond then
    { s with flags := s.flags ++ [flag],
             detected_issues := s.detected_issues ++ [flag],
             severity := escalate_severity s.severity sev }
  else s

/-- Layer 3 of `moderate_comment` (lines 79–101): the four threshold
comparisons `llm_result.get(k, 0) > self.threshold` in source order, then
`confidence = llm_result.get("confidence", 0.8)`. -/
def llm_layer (threshold : ℚ) (llm : LLMScores) (s : ModState) : ModState :=
  let t := add_flag (decide (threshold < llm.toxicity.getD 0)) "toxicity" "high" s
  let t := add_flag (decide (threshold < llm.harassment.getD 0)) "harassment" "critical" t
  let t := add_flag (decide (threshold < llm.hate_speech.getD 0)) "hate_speech" "critical" t
  let t := add_flag (decide (threshold < llm.inappropriate.getD 0)) "inappropriate" "medium" t
  { t with confidence := llm.confidence.getD (4/5) }

/-- The dict returned by `moderate_comment`. -/
structure ModerationResult where
  is_appropriate : Bool
  confidence : ℚ
  flags : List String
  severity : String
  suggestion : Option String
  detected_issues : Option (List String)
deriving DecidableEq

/-- `ModerationService._generate_suggestion` (lines 206–220). -/
def generate_suggestion (flags : List String) (severity : String) : Option String :=
  if flags.isEmpty then none
  else if severity = "critical" then some "Immediately hide this comment and review user account"
  else if severity = "high" then some "Hide comment and notify user about community guidelines"
  else if severity = "medium" then some "Review comment manually before taking action"
  else if severity = "low" then some "Monitor user for repeated violations"
  else some "Review for potential issues"

/-- The state after layer 1 (lines 58–68): the initial
`flags = [], severity = "none", confidence = 1.0, detected_issues = {}`,
then the profanity block. -/
def layer1_state (profanity_hit : String → Bool) (comment : String) : ModState :=
  add_flag (profanity_hit comment) "profanity" "medium" ⟨[], "none", 1, []⟩

/-- The state after layers 1 and 2 (lines 58–75): the spam block applied on
top of `layer1_state`. -/
def layer12_state (profanity_hit : String → Bool)
    (regex_hit : String → String → Bool) (comment : String) : ModState :=
  add_flag (check_spam regex_hit comment).is_spam "spam" "low"
    (layer1_state profanity_hit comment)

/-- `ModerationService.moderate_comment` (lines 44–116).

* `profanity_hit` is `better_profanity.profanity.contains_profanity`
  (external library, layer 1 — `_check_profanity` returns this boolean
  together with a censored copy of the text that is only stored in the
  issue payload);
* `regex_hit` is the `re.search` oracle used by `_check_spam` (layer 2);
* `outcome` is the result of the single `_llm_analysis` remote call
  (layer 3), which is only made when `len(comment) > 20 or not flags`;
* `comment_id`/`event_id`/`user_id`/`context` do not influence the result
  (the context string only enters the LLM prompt) and are omitted.

`final_state` is the local state after all three layers: layer 3 runs on
top of `layer12_state` only under the source's gate
`len(comment) > 20 or not flags` (line 78). -/
def final_state (profanity_hit : String → Bool)
    (regex_hit : String → String → Bool) (threshold : ℚ)
    (comment : String) (outcome : LLMOutcome) : ModState :=
  if 20 < comment.length ∨ (layer12_state profanity_hit regex_hit comment).flags.isEmpty
    then llm_layer threshold (llm_analysis outcome) (layer12_state profanity_hit regex_hit comment)
    else layer12_state profanity_hit regex_hit comment

/-- `ModerationService.moderate_comment`, assembling the returned dict from
`final_state` (lines 103–116). -/
def moderate_comment (profanity_hit : String → Bool)
    (regex_hit : String → String → Bool) (threshold : ℚ)
    (comment : String) (outcome : LLMOutcome) : ModerationResult :=
  let s3 := final_state profanity_hit regex_hit threshold comment outcome
  { is_appropriate := s3.flags.isEmpty,
    confidence := s3.confidence,
    flags := s3.flags,
    severity := s3.severity,
    suggestion := generate_suggestion s3.flags s3.severity,
    detected_issues := if s3.detected_issues.isEmpty then none
      else some s3.detected_issues }

/-- The pair accumulated for each entry of `moderate_batch`'s `results`. -/
structure BatchEntry where
  id : Option String
  result : ModerationResult
deriving DecidableEq

/-- The dict returned by `moderate_batch`. -/
structure BatchResult where
  total : Nat
  flagged : Nat
  results : List BatchEntry
deriving DecidableEq

/-- `ModerationService.moderate_batch` (lines 222–250): run
`moderate_comment` on each `(id, text)` pair and count the inappropriate
ones.  `outcome_of` gives the LLM outcome of the call made for a given
text. -/
def moderate_batch (profanity_hit : String → Bool)
    (regex_hit : String → String → Bool) (threshold : ℚ)
    (comments : List (Option String × String))
    (outcome_of : String → LLMOutcome) : BatchResult :=
  let results := comments.map (fun c =>
    BatchEntry.mk c.1 (moderate_comment profanity_hit regex_hit threshold c.2 (outcome_of c.2)))
  { total := comments.length,
    flagged := results.countP (fun e => !e.result.is_appropriate),
    results := results }

end Moderation

namespace Recommendations

/-- An event record.  Python events are JSON dicts; the algorithm only ever
inspects the `"id"` key (possibly absent), so the model keeps that key plus
an opaque remainder of the dict. -/
structure Event where
  id : Option String
  payload : List String
deriving DecidableEq

/-- One entry of a batch's parsed `"recommendations"` array; every key may
be missing from the JSON. -/
structure BatchRec where
  event_id : Option String
  score : Option ℚ
  reasons : Option (List String)
deriving DecidableEq

/-- One enriched output item: `{**event_data, "recommendation_score": …,
"recommendation_reasons": …}`. -/
structure EnrichedRec where
  event : Event
  recommendation_score : ℚ
  recommendation_reasons : List String
deriving DecidableEq

/-- The dict returned by `get_personalized_recommendations`. -/
structure RecommendationsOutput where
  recommendations : List EnrichedRec
  reasoning : String
  personalization_factors : List String
deriving DecidableEq

/-- Registration history; only `event_ids` influences the result (the other
keys only enter the prompt text). -/
structure RegistrationHistory where
  event_ids : List String
deriving DecidableEq

/-- Recursion core of `chunksOf`: the `fuel` argument (instantiated with
the list's length, which bounds the number of loop iterations since every
iteration drops at least one element for `n > 0`) only makes the function
structurally recursive; the `fuel = 0` arm is unreachable at the call
site. -/
def chunksOfFuel (n : Nat) : Nat → List α → List (List α)
  | _, [] => []
  | 0, l => [l]
  | fuel + 1, x :: xs => (x :: xs).take n :: chunksOfFuel n fuel ((x :: xs).drop n)

/-- The slices `candidate_events[batch_start:batch_start+batch_size]`
produced by `for batch_start in range(0, len(candidate_events), batch_size)`. -/
def chunksOf (n : Nat) (l : List α) : List (List α) :=
  chunksOfFuel n l.length l

/-- `e.get("id") in registered_ids` (a missing id is Python `None`, which is
never a member of a set of strings). -/
def id_registered (registered : List String) (e : Event) : Bool :=
  match e.id with
  | some i => registered.contains i
  | none => false

/-- The filtered `candidate_events` (recommendations_service.py lines
43–55): ids found in `registration_history["event_ids"]` are removed when
`exclude_registered` is set. -/
def candidates_of (history : Option RegistrationHistory)
    (available_events : List Event) (exclude_registered : Bool) : List Event :=
  let registered_ids : List String := match history with
    | some h => h.event_ids
    | none => []
  if exclude_registered then
    available_events.filter (fun e => !id_registered registered_ids e)
  else available_events

/-- The concatenation `all_recommendations` of the per-batch results, in
batch order; `oracle b evs` is the parsed `"recommendations"` array of the
LLM call for batch number `b` (1-based, as in the source), a failed batch
contributing `[]` (the `except` branch of `_get_batch_recommendations`). -/
def all_batch_recs (oracle : Nat → List Event → List BatchRec)
    (candidates : List Event) : List BatchRec :=
  ((chunksOf 20 candidates).enum.map (fun p => oracle (p.1 + 1) p.2)).flatten

/-- The (reversed) comparison of the Python sort
`all_recommendations.sort(key=lambda x: x.get("score", 0), reverse=True)`:
`a` may precede `b` when `b`'s score key is at most `a`'s. -/
def score_ge (a b : BatchRec) : Prop := b.score.getD 0 ≤ a.score.getD 0

instance : DecidableRel score_ge :=
  fun a b => inferInstanceAs (Decidable (b.score.getD 0 ≤ a.score.getD 0))

instance : IsTotal BatchRec score_ge :=
  ⟨fun a b => le_total (b.score.getD 0) (a.score.getD 0)⟩

instance : IsTrans BatchRec score_ge :=
  ⟨fun _ _ _ h1 h2 => le_trans h2 h1⟩

/-- The Python sort `all_recommendations.sort(key=lambda x:
x.get("score", 0), reverse=True)`.  Python's `list.sort` is a stable sort,
and the descending stable sort of a list is unique, so the (stable)
insertion sort with the pre-order `score_ge` computes exactly it. -/
def sort_by_score (l : List BatchRec) : List BatchRec :=
  l.insertionSort score_ge

/-- The enrichment loop (lines 99–110): each kept recommendation is paired
with the first candidate event whose `"id"` equals its `"event_id"` (Python
`==`, under which two missing keys are equal); recommendations whose id
matches no candidate are dropped. -/
def enrich (candidates : List Event) (top : List BatchRec) : List EnrichedRec :=
  top.filterMap (fun r =>
    (candidates.find? (fun e => e.id == r.event_id)).map (fun ev =>
      ⟨ev, r.score.getD 50, r.reasons.getD []⟩))

/-- `RecommendationsService.get_personalized_recommendations` (lines
25–118).  `user_profile` and `favorite_event_ids` only enter the prompt
text and are omitted; `limit` is the request's non-negative item cap. -/
def get_personalized_recommendations (oracle : Nat → List Event → List BatchRec)
    (history : Option RegistrationHistory) (available_events : List Event)
    (limit : Nat) (exclude_registered : Bool) : RecommendationsOutput :=
  if available_events.isEmpty then
    ⟨[], "No events available", []⟩
  else
    let candidate_events := candidates_of history available_events exclude_registered
    if candidate_events.isEmpty then
      ⟨[], "No new events available (you may already be registered for all)", []⟩
    else
      let all_recommendations := all_batch_recs oracle candidate_events
      let top_recommendations := (sort_by_score all_recommendations).take limit
      let enriched_recs := enrich candidate_events top_recommendations
      ⟨enriched_recs,
       "Analyzed " ++ toString candidate_events.length ++ " events and found "
         ++ toString all_recommendations.length ++ " matches. Showing top "
         ++ toString enriched_recs.length ++ " recommendations.",
       ["interests", "past_behavior", "quality"]⟩

/-- One entry of the parsed `"similar_events"` array of `get_similar_events`. -/
structure SimItem where
  event_id : Option String
  similarity_score : Option ℚ
  reasons : Option (List String)
deriving DecidableEq

/-- The parsed JSON of the similarity call, with the `.get(key, [])`
defaults already applied. -/
structure SimilarParsed where
  similar_events : List SimItem
  similarity_factors : List String
deriving DecidableEq

/-- One enriched similar event: `{**event, "similarity_score": …,
"similarity_reasons": …}`. -/
structure SimilarEnriched where
  event : Event
  similarity_score : ℚ
  similarity_reasons : List String
deriving DecidableEq

/-- The dict returned by `get_similar_events`. -/
structure SimilarOutput where
  similar_events : List SimilarEnriched
  similarity_factors : List String
deriving DecidableEq

/-- The candidate filter of `get_similar_events`:
`[e for e in available_events if e.get("id") != event_id]`. -/
def similar_candidates (event_id : String) (available_events : List Event) : List Event :=
  available_events.filter (fun e => !(e.id == some event_id))

/-- `RecommendationsService.get_similar_events` (lines 275–355).  `outcome`
is the combined LLM call + JSON parsing, made only when the candidate list
is nonempty; the `except` branch re-raises `Exception("AI similarity
analysis failed: …")`, modelled as `Except.error`.  `event_data` only
enters the prompt and is omitted; of the candidates only the first 50 enter
the prompt, while enrichment searches all of them, both as in the source. -/
def get_similar_events (event_id : String) (available_events : List Event)
    (limit : Nat) (outcome : Except String SimilarParsed) :
    Except String SimilarOutput :=
  let candidates := similar_candidates event_id available_events
  if candidates.isEmpty then .ok ⟨[], []⟩
  else
    match outcome with
    | .error e => .error ("AI similarity analysis failed: " ++ e)
    | .ok parsed =>
      let enriched := (parsed.similar_events.take limit).filterMap (fun item =>
        (candidates.find? (fun e => e.id == item.event_id)).map (fun ev =>
          SimilarEnriched.mk ev (item.similarity_score.getD 50) (item.reasons.getD [])))
      .ok ⟨enriched, parsed.similarity_factors⟩

end Recommendations

namespace Polling

/-- The only process-wide mutable state of `PollingService`: the `_running`
flag and the `_task` handle (`None` until the first `start`). -/
structure PollingState where
  running : Bool
  task : Option Unit
deriving DecidableEq

/-- How `await self._task` ends inside `stop`: with the cancellation signal
(`asyncio.CancelledError`), normally, or with some other exception. -/
inductive TaskOutcome where
  | cancelled
  | completed
  | failed (msg : String)
deriving DecidableEq

/-- What `stop` leaves behind: the new state, whether `cancel()` was called
on a task, and the exception (if any) that propagates out of `stop`. -/
structure StopResult where
  state : PollingState
  cancel_requested : Bool
  propagated : Option String
deriving DecidableEq

/-- `PollingService.start` (polling_service.py lines 27–35): an early
return when already running, otherwise set the flag and spawn the polling
task.  The returned boolean records whether a task was spawned. -/
def start (s : PollingState) : PollingState × Bool :=
  if s.running then (s, false)
  else ({ running := true, task := some () }, true)

/-- `PollingService.stop` (lines 37–46): clear the flag; when a task
exists, cancel it and await it, swallowing `asyncio.CancelledError` (any
other exception raised by the await propagates). -/
def stop (s : PollingState) (outcome : TaskOutcome) : StopResult :=
  let s' : PollingState := { s with running := false }
  match s.task with
  | none => ⟨s', false, none⟩
  | some _ =>
    match outcome with
    | .cancelled => ⟨s', true, none⟩
    | .completed => ⟨s', true, none⟩
    | .failed msg => ⟨s', true, some msg⟩

end Polling

namespace Routers

/-- A FastAPI `HTTPException` as raised in this service: the status code, a
machine-readable `detail["code"]` when the detail is the structured guard
payload, and the human-readable message (`detail["message"]`, or the plain
string detail). -/
structure HttpError where
  status_code : Nat
  error_code : Option String
  message : String
deriving DecidableEq

/-- `utils/openai_key_check.py, require_openai_key` (lines 15–26): when no
`OPENAI_API_KEY` is configured, raise the fixed 503 payload whose
machine-readable code is `OPENAI_KEY_NOT_CONFIGURED`. -/
def require_openai_key (key_configured : Bool) : Option HttpError :=
  if key_configured then none
  else some ⟨503, some "OPENAI_KEY_NOT_CONFIGURED",
    "OpenAI API key is not configured. This feature requires an OpenAI API key to function."⟩

/-- `POST /moderate/comment` (moderation_router.py lines 66–91): the only
handler that calls `require_openai_key()` before its `try` block. -/
def moderate_comment_endpoint (key_configured : Bool)
    (profanity_hit : String → Bool) (regex_hit : String → String → Bool)
    (threshold : ℚ) (comment : String) (outcome : Moderation.LLMOutcome) :
    Except HttpError Moderation.ModerationResult :=
  match require_openai_key key_configured with
  | some err => .error err
  | none => .ok (Moderation.moderate_comment profanity_hit regex_hit threshold comment outcome)

/-- `POST /moderate/batch` (moderation_router.py lines 93–108): no key
guard — the handler body runs whether or not the key is configured (an
absent key only makes the per-comment LLM calls fail, which
`_llm_analysis` swallows). -/
def moderate_batch_endpoint (_key_configured : Bool)
    (profanity_hit : String → Bool) (regex_hit : String → String → Bool)
    (threshold : ℚ) (comments : List (Option String × String))
    (outcome_of : String → Moderation.LLMOutcome) :
    Except HttpError Moderation.BatchResult :=
  .ok (Moderation.moderate_batch profanity_hit regex_hit threshold comments outcome_of)

/-- `POST /description/generate` (description_router.py), an endpoint
outside the moderation family: no key guard; a failure of the service call
(which re-raises) becomes a generic 500 whose detail is the exception
string. -/
def generate_description_endpoint (_key_configured : Bool)
    (outcome : Except String String) : Except HttpError String :=
  match outcome with
  | .ok text => .ok text
  | .error e => .error ⟨500, none, e⟩

end Routers

namespace Moderation

/-- `_escalate_severity` never lowers either argument's level and stays in
the level list, for arguments from the level list. -/
theorem escalate_severity_mono :
    ∀ cur ∈ severity_levels, ∀ nw ∈ severity_levels,
      severity_index cur ≤ severity_index (escalate_severity cur nw) ∧
      severity_index nw ≤ severity_index (escalate_severity cur nw) ∧
      escalate_severity cur nw ∈ severity_levels := by decide

/-- A flag block leaves the previous flag list as a prefix. -/
theorem add_flag_flags_extend (c : Bool) (f sev : String) (s : ModState) :
    s.flags <+: (add_flag c f sev s).flags := by
  cases c <;> simp [add_flag]

/-- A flag block keeps every previously recorded flag. -/
theorem add_flag_mem (c : Bool) (f sev : String) {a : String} {s : ModState}
    (h : a ∈ s.flags) : a ∈ (add_flag c f sev s).flags :=
  (add_flag_flags_extend c f sev s).subset h

/-- A taken flag block records its flag. -/
theorem add_flag_mem_self {c : Bool} (h : c = true) (f sev : String) (s : ModState) :
    f ∈ (add_flag c f sev s).flags := by
  subst h; simp [add_flag]

/-- A flag block never lowers the severity and keeps it in the level list. -/
theorem add_flag_severity (c : Bool) (f : String) {sev : String} {s : ModState}
    (hs : s.severity ∈ severity_levels) (hv : sev ∈ severity_levels) :
    severity_index s.severity ≤ severity_index (add_flag c f sev s).severity ∧
    (add_flag c f sev s).severity ∈ severity_levels := by
  cases c
  · simpa [add_flag] using hs
  · have h := escalate_severity_mono s.severity hs sev hv
    simpa [add_flag] using ⟨h.1, h.2.2⟩

/-- Layer 3 leaves the previous flag list as a prefix. -/
theorem llm_layer_flags_extend (th : ℚ) (llm : LLMScores) (s : ModState) :
    s.flags <+: (llm_layer th llm s).flags := by
  unfold llm_layer
  exact ((((add_flag_flags_extend _ _ _ _).trans
    (add_flag_flags_extend _ _ _ _)).trans
    (add_flag_flags_extend _ _ _ _)).trans
    (add_flag_flags_extend _ _ _ _))

/-- Layer 3 keeps every previously recorded flag. -/
theorem llm_layer_mem (th : ℚ) (llm : LLMScores) {a : String} {s : ModState}
    (h : a ∈ s.flags) : a ∈ (llm_layer th llm s).flags :=
  (llm_layer_flags_extend th llm s).subset h

/-- Layer 3 never lowers the severity and keeps it in the level list. -/
theorem llm_layer_severity (th : ℚ) (llm : LLMScores) {s : ModState}
    (hs : s.severity ∈ severity_levels) :
    severity_index s.severity ≤ severity_index (llm_layer th llm s).severity ∧
    (llm_layer th llm s).severity ∈ severity_levels := by
  unfold llm_layer
  obtain ⟨l1, m1⟩ := add_flag_severity (decide (th < llm.toxicity.getD 0)) "toxicity"
    hs (by decide : ("high" : String) ∈ severity_levels)
  obtain ⟨l2, m2⟩ := add_flag_severity (decide (th < llm.harassment.getD 0)) "harassment"
    m1 (by decide : ("critical" : String) ∈ severity_levels)
  obtain ⟨l3, m3⟩ := add_flag_severity (decide (th < llm.hate_speech.getD 0)) "hate_speech"
    m2 (by decide : ("critical" : String) ∈ severity_levels)
  obtain ⟨l4, m4⟩ := add_flag_severity (decide (th < llm.inappropriate.getD 0)) "inappropriate"
    m3 (by decide : ("medium" : String) ∈ severity_levels)
  exact ⟨le_trans l1 (le_trans l2 (le_trans l3 l4)), m4⟩

/-- The severity after layer 1 is a member of the level list. -/
theorem layer1_state_severity_mem (ph : String → Bool) (comment : String) :
    (layer1_state ph comment).severity ∈ severity_levels := by
  unfold layer1_state
  cases hp : ph comment <;> decide

/-- The severity after layers 1 and 2 is a member of the level list. -/
theorem layer12_state_severity_mem (ph : String → Bool)
    (rh : String → String → Bool) (comment : String) :
    (layer12_state ph rh comment).severity ∈ severity_levels := by
  unfold layer12_state layer1_state
  cases hp : ph comment <;> cases hs : (check_spam rh comment).is_spam <;> decide

/-- Every flag recorded by layers 1 and 2 survives to the final state. -/
theorem final_state_flags_mem (ph : String → Bool) (rh : String → String → Bool)
    (th : ℚ) (comment : String) (outcome : LLMOutcome) {a : String}
    (h : a ∈ (layer12_state ph rh comment).flags) :
    a ∈ (final_state ph rh th comment outcome).flags := by
  unfold final_state
  split
  · exact llm_layer_mem _ _ h
  · exact h

/-- The final severity is at least the severity after layers 1 and 2. -/
theorem final_state_severity_ge (ph : String → Bool) (rh : String → String → Bool)
    (th : ℚ) (comment : String) (outcome : LLMOutcome) :
    severity_index (layer12_state ph rh comment).severity ≤
      severity_index (final_state ph rh th comment outcome).severity := by
  unfold final_state
  split
  · exact (llm_layer_severity _ _ (layer12_state_severity_mem ph rh comment)).1
  · exact le_rfl

/-- Everything layers 1 and 2 can flag is `"profanity"` or `"spam"`. -/
theorem layer12_flags_sub (ph : String → Bool) (rh : String → String → Bool)
    (comment : String) :
    ∀ f ∈ (layer12_state ph rh comment).flags, f = "profanity" ∨ f = "spam" := by
  unfold layer12_state layer1_state
  cases hp : ph comment <;> cases hs : (check_spam rh comment).is_spam <;> decide

/-- For a non-negative threshold, layer 3 run on the fallback scores of a
failed remote call adds no flag. -/
theorem llm_layer_zero_flags {th : ℚ} (h : 0 ≤ th) (s : ModState) :
    (llm_layer th (llm_analysis .failure) s).flags = s.flags := by
  have hd : decide (th < (0 : ℚ)) = false := decide_eq_false (not_lt.mpr h)
  unfold llm_layer llm_analysis
  simp [add_flag, hd]

/-- `_generate_suggestion` returns `None` exactly on an empty flag list. -/
theorem generate_suggestion_eq_none (flags : List String) (severity : String) :
    generate_suggestion flags severity = none ↔ flags = [] := by
  unfold generate_suggestion
  rcases flags with _ | ⟨f, fs⟩
  · simp
  · simp only [List.isEmpty_cons, Bool.false_eq_true, if_false]
    split_ifs <;> simp

end Moderation

namespace Moderation

/-- C1 (amended): `moderate_comment` is the sequential composition of the
lexicon profanity check (layer 1), the spam-pattern check (layer 2) and the
remote-classifier check (layer 3); each layer only appends flags (the
previous flag list stays a prefix) and never lowers the severity, but
layer 3 runs only under the gate `len(comment) > 20 or not flags` — for a
comment of at most 20 characters that layers 1–2 already flagged, the
remote check is skipped. -/
theorem moderation_three_layer_structure (ph : String → Bool)
    (rh : String → String → Bool) (th : ℚ) (comment : String)
    (outcome : LLMOutcome) :
    ([] : List String) <+: (layer1_state ph comment).flags ∧
    (layer1_state ph comment).flags <+: (layer12_state ph rh comment).flags ∧
    (layer12_state ph rh comment).flags <+:
      (moderate_comment ph rh th comment outcome).flags ∧
    severity_index "none" ≤ severity_index (layer1_state ph comment).severity ∧
    severity_index (layer1_state ph comment).severity ≤
      severity_index (layer12_state ph rh comment).severity ∧
    severity_index (layer12_state ph rh comment).severity ≤
      severity_index (moderate_comment ph rh th comment outcome).severity ∧
    (moderate_comment ph rh th comment outcome).flags =
      (if 20 < comment.length ∨ (layer12_state ph rh comment).flags.isEmpty
       then (llm_layer th (llm_analysis outcome) (layer12_state ph rh comment)).flags
       else (layer12_state ph rh comment).flags) := by
  refine ⟨List.nil_prefix, add_flag_flags_extend _ _ _ _, ?_, ?_, ?_, ?_, ?_⟩
  · show (layer12_state ph rh comment).flags <+:
      (final_state ph rh th comment outcome).flags
    unfold final_state
    split
    · exact llm_layer_flags_extend _ _ _
    · exact List.prefix_refl _
  · simp [show severity_index "none" = 0 from by decide]
  · exact (add_flag_severity _ "spam" (layer1_state_severity_mem ph comment)
      (by decide : ("low" : String) ∈ severity_levels)).1
  · exact final_state_severity_ge ph rh th comment outcome
  · show (final_state ph rh th comment outcome).flags = _
    unfold final_state
    exact apply_ite ModState.flags _ _ _

/-- C1 (counterexample): the remote-classifier check is not performed for
every comment.  For the 4-character profane comment `"damn"` with all four
remote scores at `1.0` (above the default threshold `0.7`), the result
carries no `"toxicity"` flag at all — layer 3 was skipped because the
comment is short and layer 1 had flagged it. -/
theorem moderation_llm_layer_skipped :
    (7 / 10 : ℚ) < 1 ∧
    (moderate_comment (fun s => s == "damn") (fun _ _ => false) (7 / 10) "damn"
        (.success ⟨some 1, some 1, some 1, some 1, some 1⟩)).flags = ["profanity"] ∧
    "toxicity" ∉ (moderate_comment (fun s => s == "damn") (fun _ _ => false) (7 / 10) "damn"
        (.success ⟨some 1, some 1, some 1, some 1, some 1⟩)).flags := by
  have hspam : (check_spam (fun _ _ => false) "damn").is_spam = false := by
    simp only [check_spam]
    unfold spam_matches
    rw [if_neg]
    · simp
    · rintro ⟨h1, -⟩
      exact absurd h1 (by decide)
  have h12 : layer12_state (fun s => s == "damn") (fun _ _ => false) "damn" =
      ⟨["profanity"], "medium", 1, ["profanity"]⟩ := by
    unfold layer12_state layer1_state
    rw [hspam]
    simp only [add_flag, Bool.false_eq_true, if_false]
    rw [if_pos (by decide : (("damn" == "damn") = true))]
    rfl
  have hflags : (moderate_comment (fun s => s == "damn") (fun _ _ => false) (7 / 10) "damn"
      (.success ⟨some 1, some 1, some 1, some 1, some 1⟩)).flags = ["profanity"] := by
    show (final_state _ _ _ _ _).flags = ["profanity"]
    unfold final_state
    rw [h12]
    split
    · rename_i hcond
      exact absurd hcond (by decide)
    · rfl
  exact ⟨by norm_num, hflags, by rw [hflags]; decide⟩

/-- C3: a failed remote-classifier call never escapes `moderate_comment`
(the model of `_llm_analysis` is total on `LLMOutcome.failure`) and is
equivalent to a successful call with all four category scores `0.0` (and
confidence `0.5`); consequently, for a non-negative threshold, a comment
whose remote call failed can only be flagged by the local layers 1–2. -/
theorem moderation_fail_open (ph : String → Bool) (rh : String → String → Bool)
    (th : ℚ) (comment : String) (h : 0 ≤ th) :
    moderate_comment ph rh th comment .failure =
      moderate_comment ph rh th comment
        (.success ⟨some 0, some 0, some 0, some 0, some (1/2)⟩) ∧
    ∀ f ∈ (moderate_comment ph rh th comment .failure).flags,
      f = "profanity" ∨ f = "spam" := by
  constructor
  · rfl
  · intro f hf
    have hz := llm_layer_zero_flags h (layer12_state ph rh comment)
    have hff : f ∈ (final_state ph rh th comment .failure).flags := hf
    have h12 : f ∈ (layer12_state ph rh comment).flags := by
      unfold final_state at hff
      split at hff
      · rwa [hz] at hff
      · exact hff
    exact layer12_flags_sub ph rh comment f h12

/-- C3 (witness): the fail-open equivalence at a concrete comment and the
default threshold `0.7`. -/
theorem moderation_fail_open_witness :
    moderate_comment (fun _ => true) (fun _ _ => false) (7 / 10) "x" .failure =
      moderate_comment (fun _ => true) (fun _ _ => false) (7 / 10) "x"
        (.success ⟨some 0, some 0, some 0, some 0, some (1/2)⟩) ∧
    ∀ f ∈ (moderate_comment (fun _ => true) (fun _ _ => false) (7 / 10) "x" .failure).flags,
      f = "profanity" ∨ f = "spam" :=
  moderation_fail_open _ _ _ _ (by norm_num)

/-- C6 (amended): any text that matches one of the four spam regex
patterns, or whose upper-case fraction exceeds `0.5` *and* whose length
exceeds 10 characters (the source's extra guard, absent from the claim),
gets the `"spam"` flag. -/
theorem spam_pattern_flagged (ph : String → Bool) (rh : String → String → Bool)
    (th : ℚ) (text : String) (outcome : LLMOutcome)
    (h : (∃ p ∈ spam_patterns, rh p text.toLower = true) ∨
         (10 < text.length ∧ (1/2 : ℚ) < caps_fraction text)) :
    "spam" ∈ (moderate_comment ph rh th text outcome).flags := by
  have hspam : (check_spam rh text).is_spam = true := by
    simp only [check_spam]
    unfold spam_matches
    rcases h with ⟨p, hp, hph⟩ | hcaps
    · have hne : spam_patterns.filter (fun q => rh q text.toLower) ≠ [] :=
        List.ne_nil_of_mem (List.mem_filter.2 ⟨hp, hph⟩)
      split
      · simp
      · simpa [List.isEmpty_iff] using hne
    · rw [if_pos hcaps]
      simp
  have h2 : "spam" ∈ (layer12_state ph rh text).flags :=
    add_flag_mem_self hspam _ _ _
  exact final_state_flags_mem ph rh th text outcome h2

/-- C6 (witness): a 12-character all-caps text is flagged as spam. -/
theorem spam_pattern_flagged_witness :
    "spam" ∈ (moderate_comment (fun _ => false) (fun _ _ => false) (7 / 10)
      "AAAAAAAAAAAA" .failure).flags := by
  have hc : (1/2 : ℚ) < caps_fraction "AAAAAAAAAAAA" := by
    unfold caps_fraction
    rw [show ("AAAAAAAAAAAA".toList.filter Char.isUpper).length = 12 from by decide,
        show "AAAAAAAAAAAA".length = 12 from by decide]
    norm_num
  exact spam_pattern_flagged _ _ _ _ _ (Or.inr ⟨by decide, hc⟩)

/-- C6 (counterexample): the claim as stated fails for the 8-character text
`"ABAB ABA"`: its upper-case fraction is `7/8 > 0.5`, but because the text
is not longer than 10 characters the source never runs the caps check
(`_check_spam` line 139), no spam pattern matches the lowered text
`"abab aba"`, and the final flag list is empty. -/
theorem spam_caps_short_text_not_flagged :
    (1/2 : ℚ) < caps_fraction "ABAB ABA" ∧
    "ABAB ABA".length ≤ 10 ∧
    (moderate_comment (fun _ => false) (fun _ _ => false) (7 / 10)
      "ABAB ABA" .failure).flags = [] := by
  have hcf : caps_fraction "ABAB ABA" = 7 / 8 := by
    unfold caps_fraction
    rw [show ("ABAB ABA".toList.filter Char.isUpper).length = 7 from by decide,
        show "ABAB ABA".length = 8 from by decide]
    norm_num
  have hspam : (check_spam (fun _ _ => false) "ABAB ABA").is_spam = false := by
    simp only [check_spam]
    unfold spam_matches
    rw [if_neg]
    · simp
    · rintro ⟨h1, -⟩
      exact absurd h1 (by decide)
  have h12 : layer12_state (fun _ => false) (fun _ _ => false) "ABAB ABA" =
      ⟨[], "none", 1, []⟩ := by
    unfold layer12_state layer1_state
    rw [hspam]
    simp [add_flag]
  have hflags : (moderate_comment (fun _ => false) (fun _ _ => false) (7 / 10)
      "ABAB ABA" .failure).flags = [] := by
    show (final_state _ _ _ _ _).flags = []
    unfold final_state
    rw [h12]
    split
    · rw [llm_layer_zero_flags (by norm_num : (0 : ℚ) ≤ 7 / 10)]
    · rename_i hcond
      exact absurd (Or.inr rfl) hcond
  exact ⟨by rw [hcf]; norm_num, by decide, hflags⟩

/-- C7: a comment on which the profanity lexicon fires gets the
`"profanity"` flag, and the final severity is at least `"medium"` in the
order none < low < medium < high < critical. -/
theorem moderation_profanity_severity (ph : String → Bool)
    (rh : String → String → Bool) (th : ℚ) (comment : String)
    (outcome : LLMOutcome) (h : ph comment = true) :
    "profanity" ∈ (moderate_comment ph rh th comment outcome).flags ∧
    severity_index "medium" ≤
      severity_index (moderate_comment ph rh th comment outcome).severity := by
  constructor
  · have h1 : "profanity" ∈ (layer1_state ph comment).flags :=
      add_flag_mem_self h _ _ _
    have h2 : "profanity" ∈ (layer12_state ph rh comment).flags :=
      add_flag_mem _ _ _ h1
    exact final_state_flags_mem ph rh th comment outcome h2
  · have h1 : severity_index "medium" ≤ severity_index (layer1_state ph comment).severity := by
      unfold layer1_state
      rw [h]
      decide
    have h2 : severity_index (layer1_state ph comment).severity ≤
        severity_index (layer12_state ph rh comment).severity :=
      (add_flag_severity _ "spam" (layer1_state_severity_mem ph comment)
        (by decide : ("low" : String) ∈ severity_levels)).1
    exact le_trans h1 (le_trans h2 (final_state_severity_ge ph rh th comment outcome))

/-- C7 (witness): the profanity guarantee at the concrete comment
`"damn"`. -/
theorem moderation_profanity_severity_witness :
    "profanity" ∈ (moderate_comment (fun s => s == "damn") (fun _ _ => false)
      (7 / 10) "damn" .failure).flags ∧
    severity_index "medium" ≤
      severity_index (moderate_comment (fun s => s == "damn") (fun _ _ => false)
        (7 / 10) "damn" .failure).severity :=
  moderation_profanity_severity _ _ _ _ _ (by decide)

/-- C10: in every record returned by `moderate_comment`, `is_appropriate`
holds exactly when the flag list is empty, and `suggestion` is `None`
exactly when the flag list is empty. -/
theorem moderation_result_invariant (ph : String → Bool)
    (rh : String → String → Bool) (th : ℚ) (comment : String)
    (outcome : LLMOutcome) :
    ((moderate_comment ph rh th comment outcome).is_appropriate = true ↔
      (moderate_comment ph rh th comment outcome).flags = []) ∧
    ((moderate_comment ph rh th comment outcome).suggestion = none ↔
      (moderate_comment ph rh th comment outcome).flags = []) := by
  constructor
  · show (final_state ph rh th comment outcome).flags.isEmpty = true ↔
      (final_state ph rh th comment outcome).flags = []
    exact List.isEmpty_iff
  · show generate_suggestion (final_state ph rh th comment outcome).flags
        (final_state ph rh th comment outcome).severity = none ↔
      (final_state ph rh th comment outcome).flags = []
    exact generate_suggestion_eq_none _ _

end Moderation

namespace Recommendations

/-- C5: with `exclude_registered = True`, no event whose id occurs in the
registration history's `event_ids` ever appears in the returned
recommendations — registered candidates are removed before batching,
and enrichment only draws events from the filtered candidate list. -/
theorem registered_events_excluded (oracle : Nat → List Event → List BatchRec)
    (h : RegistrationHistory) (available_events : List Event) (limit : Nat)
    {item : EnrichedRec}
    (hmem : item ∈ (get_personalized_recommendations oracle (some h)
      available_events limit true).recommendations) :
    ∀ i ∈ h.event_ids, item.event.id ≠ some i := by
  simp only [get_personalized_recommendations] at hmem
  split at hmem
  · simp at hmem
  · split at hmem
    · simp at hmem
    · simp only [enrich, List.mem_filterMap] at hmem
      obtain ⟨r, hr, hmap⟩ := hmem
      rw [Option.map_eq_some'] at hmap
      obtain ⟨ev, hfind, heq⟩ := hmap
      have hev : ev ∈ candidates_of (some h) available_events true :=
        List.mem_of_find?_eq_some hfind
      simp only [candidates_of, if_pos, List.mem_filter] at hev
      obtain ⟨-, hpred⟩ := hev
      intro i hi hcontr
      have hevid : ev.id = some i := by rw [← heq] at hcontr; exact hcontr
      rw [id_registered, hevid] at hpred
      simp only [Bool.not_eq_true'] at hpred
      exact absurd hpred (by simp [hi])

/-- C5 (witness): with one registered event `"a"` and one fresh event
`"b"`, the single returned item is event `"b"`, whose id is not `"a"`. -/
theorem registered_events_excluded_witness :
    (⟨⟨some "b", []⟩, 80, []⟩ : EnrichedRec).event.id ≠ some "a" :=
  registered_events_excluded
    (fun _ evs => evs.map (fun e => ⟨e.id, some 80, none⟩)) ⟨["a"]⟩
    [⟨some "a", []⟩, ⟨some "b", []⟩] 10 (by decide) "a" (by decide)

/-- C9: when the candidate list is nonempty (so the remote call is made)
and the remote LLM call or its JSON parsing fails, `get_similar_events`
re-raises — the result is the error `"AI similarity analysis failed: …"`,
never a fallback similar-events list. -/
theorem similar_events_fail_fast (event_id : String) (available_events : List Event)
    (limit : Nat) (err : String)
    (h : similar_candidates event_id available_events ≠ []) :
    get_similar_events event_id available_events limit (.error err) =
      .error ("AI similarity analysis failed: " ++ err) := by
  simp only [get_similar_events]
  split
  · rename_i hc
    exact absurd (List.isEmpty_iff.mp hc) h
  · rfl

/-- C9 (witness): the fail-fast error at a concrete nonempty candidate
list. -/
theorem similar_events_fail_fast_witness :
    get_similar_events "e" [⟨some "x", []⟩] 5 (.error "boom") =
      .error ("AI similarity analysis failed: boom") :=
  similar_events_fail_fast _ _ _ _ (by decide)

end Recommendations

namespace Polling

/-- C8: the polling service is a two-state machine over the `_running`
flag: `start` on a stopped service sets the flag and spawns the task,
`start` on a running service is a no-op; `stop` always clears the flag,
requests cancellation whenever a task exists, and swallows the
cancellation signal (nothing propagates when the awaited task ends with
`asyncio.CancelledError`). -/
theorem polling_state_machine (s : PollingState) (outcome : TaskOutcome) :
    (s.running = false → start s = (⟨true, some ()⟩, true)) ∧
    (s.running = true → start s = (s, false)) ∧
    (stop s outcome).state.running = false ∧
    (stop s outcome).state.task = s.task ∧
    (s.task.isSome = true → (stop s outcome).cancel_requested = true) ∧
    (outcome = .cancelled → (stop s outcome).propagated = none) := by
  obtain ⟨r, t⟩ := s
  cases r <;> rcases t with _ | ⟨⟩ <;> cases outcome <;> simp [start, stop]

/-- C8 (witness): a start from the stopped state spawns the task, and a
subsequent cancelled stop clears the flag without propagating anything. -/
theorem polling_state_machine_witness :
    start ⟨false, none⟩ = (⟨true, some ()⟩, true) ∧
    (stop ⟨true, some ()⟩ .cancelled).state.running = false ∧
    (stop ⟨true, some ()⟩ .cancelled).propagated = none :=
  ⟨(polling_state_machine ⟨false, none⟩ .cancelled).1 rfl,
   (polling_state_machine ⟨true, some ()⟩ .cancelled).2.2.1,
   (polling_state_machine ⟨true, some ()⟩ .cancelled).2.2.2.2.2 rfl⟩

end Polling

namespace Routers

/-- C4 (counterexample): with the key absent, the `/moderate/comment`
handler returns the fixed 503 `OPENAI_KEY_NOT_CONFIGURED` payload, but the
`/moderate/batch` handler — an endpoint of the same moderation family —
does not: it runs its body and returns an ordinary 200 result. -/
theorem moderation_batch_endpoint_unguarded :
    moderate_comment_endpoint false (fun _ => false) (fun _ _ => false)
        (7 / 10) "hi" .failure =
      .error ⟨503, some "OPENAI_KEY_NOT_CONFIGURED",
        "OpenAI API key is not configured. This feature requires an OpenAI API key to function."⟩ ∧
    moderate_batch_endpoint false (fun _ => false) (fun _ _ => false)
        (7 / 10) [] (fun _ => .failure) = .ok ⟨0, 0, []⟩ ∧
    moderate_batch_endpoint false (fun _ => false) (fun _ _ => false)
        (7 / 10) [] (fun _ => .failure) ≠
      .error ⟨503, some "OPENAI_KEY_NOT_CONFIGURED",
        "OpenAI API key is not configured. This feature requires an OpenAI API key to function."⟩ := by
  refine ⟨rfl, rfl, ?_⟩
  simp [moderate_batch_endpoint]

/-- C4 (amended): with the key absent, exactly one endpoint — the
`/moderate/comment` handler — returns the fixed 503 payload with code
`OPENAI_KEY_NOT_CONFIGURED`; the other moderation endpoints (here
`/moderate/batch`) and the endpoints outside the moderation family (here
`/description/generate`) never produce that payload. -/
theorem openai_guard_comment_endpoint_only (ph : String → Bool)
    (rh : String → String → Bool) (th : ℚ) (comment : String)
    (outcome : Moderation.LLMOutcome)
    (comments : List (Option String × String))
    (outcome_of : String → Moderation.LLMOutcome) :
    moderate_comment_endpoint false ph rh th comment outcome =
      .error ⟨503, some "OPENAI_KEY_NOT_CONFIGURED",
        "OpenAI API key is not configured. This feature requires an OpenAI API key to function."⟩ ∧
    moderate_batch_endpoint false ph rh th comments outcome_of =
      .ok (Moderation.moderate_batch ph rh th comments outcome_of) ∧
    ∀ o : Except String String, generate_description_endpoint false o ≠
      .error ⟨503, some "OPENAI_KEY_NOT_CONFIGURED",
        "OpenAI API key is not configured. This feature requires an OpenAI API key to function."⟩ := by
  refine ⟨rfl, rfl, ?_⟩
  intro o
  cases o <;> simp [generate_description_endpoint]

/-- C4 (amended, witness): the guard payload at a concrete request. -/
theorem openai_guard_comment_endpoint_only_witness :
    moderate_comment_endpoint false (fun _ => true) (fun _ _ => false)
        (7 / 10) "hello" .failure =
      .error ⟨503, some "OPENAI_KEY_NOT_CONFIGURED",
        "OpenAI API key is not configured. This feature requires an OpenAI API key to function."⟩ :=
  (openai_guard_comment_endpoint_only (fun _ => true) (fun _ _ => false)
    (7 / 10) "hello" .failure [] (fun _ => .failure)).1

end Routers

/-- Mapping `g` over a `filterMap f` gives a sublist of mapping `h` over
the original list, whenever `g` after `f` agrees with `h` on kept
elements. -/
theorem map_filterMap_sublist {α β γ : Type _} (f : α → Option β) (g : β → γ)
    (h : α → γ) (H : ∀ a b, f a = some b → g b = h a) :
    ∀ l : List α, ((l.filterMap f).map g).Sublist (l.map h) := by
  intro l
  induction l with
  | nil => simp
  | cons x xs ih =>
    rw [List.filterMap_cons]
    cases hfx : f x with
    | none =>
      rw [List.map_cons]
      exact ih.cons _
    | some b =>
      rw [List.map_cons, List.map_cons, H x b hfx]
      exact ih.cons₂ _

namespace Recommendations

/-- C2 (amended): for every candidate list and limit,
`get_personalized_recommendations` (batches of 20, concatenated, globally
sorted, truncated, enriched) returns at most `limit` items; when every
per-batch recommendation carries a `"score"` key, the output is sorted by
descending `recommendation_score`; and when the per-batch results mention
every event id at most once overall, no event appears twice in the output.
(The last two hypotheses are needed because the source performs no
deduplication and sorts by the `"score"` key with default `0` while
enriching with default `50`.) -/
theorem recommendations_batching (oracle : Nat → List Event → List BatchRec)
    (history : Option RegistrationHistory) (available_events : List Event)
    (limit : Nat) (exclude_registered : Bool) :
    (get_personalized_recommendations oracle history available_events limit
      exclude_registered).recommendations.length ≤ limit ∧
    ((∀ r ∈ all_batch_recs oracle
        (candidates_of history available_events exclude_registered),
        r.score.isSome = true) →
      (get_personalized_recommendations oracle history available_events limit
        exclude_registered).recommendations.Pairwise
          (fun a b => b.recommendation_score ≤ a.recommendation_score)) ∧
    (((all_batch_recs oracle
        (candidates_of history available_events exclude_registered)).map
          (fun r => r.event_id)).Nodup →
      ((get_personalized_recommendations oracle history available_events limit
        exclude_registered).recommendations.map (fun i => i.event)).Nodup) := by
  simp only [get_personalized_recommendations]
  split
  · simp
  · split
    · simp
    · refine ⟨?_, ?_, ?_⟩
      · calc (enrich (candidates_of history available_events exclude_registered)
              ((sort_by_score (all_batch_recs oracle
                (candidates_of history available_events exclude_registered))).take
                  limit)).length
            ≤ ((sort_by_score (all_batch_recs oracle
                (candidates_of history available_events exclude_registered))).take
                  limit).length := List.length_filterMap_le _ _
          _ ≤ limit := by
              rw [List.length_take]
              exact min_le_left _ _
      · intro hsome
        have hsorted : (sort_by_score (all_batch_recs oracle
            (candidates_of history available_events exclude_registered))).Pairwise
              score_ge :=
          List.sorted_insertionSort score_ge _
        have htop := List.Pairwise.sublist (List.take_sublist limit _) hsorted
        have hmemall : ∀ r ∈ (sort_by_score (all_batch_recs oracle
            (candidates_of history available_events exclude_registered))).take limit,
            r ∈ all_batch_recs oracle
              (candidates_of history available_events exclude_registered) :=
          fun r hr => (List.perm_insertionSort score_ge _).subset
            ((List.take_sublist limit _).subset hr)
        rw [List.Pairwise.and_mem] at htop
        refine List.Pairwise.filterMap _ ?_ htop
        rintro a a' ⟨ha, ha', hge⟩ b hb b' hb'
        obtain ⟨sa, hsa⟩ := Option.isSome_iff_exists.mp (hsome a (hmemall a ha))
        obtain ⟨sa', hsa'⟩ := Option.isSome_iff_exists.mp (hsome a' (hmemall a' ha'))
        simp only [Option.mem_def, Option.map_eq_some'] at hb hb'
        obtain ⟨ev, -, rfl⟩ := hb
        obtain ⟨ev', -, rfl⟩ := hb'
        have hge' : a'.score.getD 0 ≤ a.score.getD 0 := hge
        rw [hsa, hsa'] at hge' ⊢
        simpa using hge'
      · intro hnd
        have hnd_sorted : ((sort_by_score (all_batch_recs oracle
            (candidates_of history available_events exclude_registered))).map
              (fun r => r.event_id)).Nodup :=
          ((List.perm_insertionSort score_ge _).map (fun r => r.event_id)).nodup_iff.mpr hnd
        have hnd_top : (((sort_by_score (all_batch_recs oracle
            (candidates_of history available_events exclude_registered))).take limit).map
              (fun r => r.event_id)).Nodup := by
          rw [List.map_take]
          exact hnd_sorted.sublist (List.take_sublist _ _)
        have hsub := map_filterMap_sublist
          (fun r => ((candidates_of history available_events
              exclude_registered).find? (fun e => e.id == r.event_id)).map
            (fun ev => (⟨ev, r.score.getD 50, r.reasons.getD []⟩ : EnrichedRec)))
          (fun i => i.event.id) (fun r => r.event_id) ?_
          ((sort_by_score (all_batch_recs oracle
            (candidates_of history available_events exclude_registered))).take limit)
        · refine List.Nodup.of_map (fun e => e.id) ?_
          rw [List.map_map]
          exact List.Nodup.sublist hsub hnd_top
        · intro r item hf
          rw [Option.map_eq_some'] at hf
          obtain ⟨ev, hfind, rfl⟩ := hf
          simpa using List.find?_some hfind

/-- C2 (counterexample): the source performs no deduplication, so when a
batch's parsed result mentions the same event id twice, the same event
appears twice in the output. -/
theorem recommendations_duplicate_output :
    (get_personalized_recommendations
        (fun _ _ => [⟨some "a", some 90, none⟩, ⟨some "a", some 80, none⟩])
        none [⟨some "a", []⟩] 10 true).recommendations =
      [⟨⟨some "a", []⟩, 90, []⟩, ⟨⟨some "a", []⟩, 80, []⟩] ∧
    ¬ ((get_personalized_recommendations
        (fun _ _ => [⟨some "a", some 90, none⟩, ⟨some "a", some 80, none⟩])
        none [⟨some "a", []⟩] 10 true).recommendations.map
          (fun i => i.event)).Nodup := by
  decide

/-- C2 (witness): the amended guarantees at a concrete run — two events,
one batch, limit 1. -/
theorem recommendations_batching_witness :
    (get_personalized_recommendations
        (fun _ evs => evs.map (fun e => ⟨e.id, some 70, none⟩))
        none [⟨some "a", []⟩, ⟨some "b", []⟩] 1 true).recommendations.length ≤ 1 ∧
    (get_personalized_recommendations
        (fun _ evs => evs.map (fun e => ⟨e.id, some 70, none⟩))
        none [⟨some "a", []⟩, ⟨some "b", []⟩] 1 true).recommendations.Pairwise
          (fun a b => b.recommendation_score ≤ a.recommendation_score) ∧
    ((get_personalized_recommendations
        (fun _ evs => evs.map (fun e => ⟨e.id, some 70, none⟩))
        none [⟨some "a", []⟩, ⟨some "b", []⟩] 1 true).recommendations.map
          (fun i => i.event)).Nodup :=
  ⟨(recommendations_batching (fun _ evs => evs.map (fun e => ⟨e.id, some 70, none⟩))
      none [⟨some "a", []⟩, ⟨some "b", []⟩] 1 true).1,
   (recommendations_batching (fun _ evs => evs.map (fun e => ⟨e.id, some 70, none⟩))
      none [⟨some "a", []⟩, ⟨some "b", []⟩] 1 true).2.1 (by decide),
   (recommendations_batching (fun _ evs => evs.map (fun e => ⟨e.id, some 70, none⟩))
      none [⟨some "a", []⟩, ⟨some "b", []⟩] 1 true).2.2 (by decide)⟩

end Recommendations
